import Mathlib

/-!
Verification development for the `digikey_mcp` repository: a shallow
embedding in Lean 4 of the DigiKey API client (`src/digikey_mcp/client.py`)
and the nine API operations (`src/digikey_mcp/api/{search,catalog,product}.py`),
together with theorems settling the specification claims about request
construction, header construction, authentication and error surfacing.

HTTP traffic is modelled by passing the would-be `HttpResponse` to each
operation explicitly and recording the list of issued `HttpRequest`s, so that
"makes no network call" is the statement that the recorded list is empty.
-/

set_option autoImplicit false

namespace DigikeyMcp

/-- A JSON value, as decoded by Python's `resp.json()`.  Python `None`
corresponds to `Json.null`; Python dicts preserve insertion order, so objects
are ordered association lists. -/
inductive Json where
  | null : Json
  | bool : Bool → Json
  | num : Int → Json
  | str : String → Json
  | arr : List Json → Json
  | obj : List (String × Json) → Json
deriving Repr

/-- First-match lookup in an ordered association list; models Python dict
indexing (keys of a decoded JSON dict are unique, so first match is the
match). -/
def lookupPairs : List (String × Json) → String → Option Json
  | [], _ => none
  | (k, v) :: rest, key => if k == key then some v else lookupPairs rest key

/-- `resp.json()[key]` access: `none` models the `KeyError`/`TypeError`
Python raises when the key is absent or the value is not a dict. -/
def jsonLookup : Json → String → Option Json
  | Json.obj kvs, key => lookupPairs kvs key
  | _, _ => none

/-- The single-quote character, used by Python `repr` of strings. -/
def pyQuote : String := String.singleton (Char.ofNat 39)

mutual

/-- Python `repr()` of a decoded JSON value (`repr` is what `str` applies to
the elements of lists and dicts). -/
def pyRepr : Json → String
  | Json.null => "None"
  | Json.bool true => "True"
  | Json.bool false => "False"
  | Json.num n => toString n
  | Json.str s => pyQuote ++ s ++ pyQuote
  | Json.arr xs => "[" ++ pyReprList xs ++ "]"
  | Json.obj kvs => "\x7b" ++ pyReprObj kvs ++ "\x7d"

/-- Comma-separated `repr`s of list elements. -/
def pyReprList : List Json → String
  | [] => ""
  | [x] => pyRepr x
  | x :: xs => pyRepr x ++ ", " ++ pyReprList xs

/-- Comma-separated `repr`s of dict entries. -/
def pyReprObj : List (String × Json) → String
  | [] => ""
  | [(k, v)] => pyQuote ++ k ++ pyQuote ++ ": " ++ pyRepr v
  | (k, v) :: kvs => pyQuote ++ k ++ pyQuote ++ ": " ++ pyRepr v ++ ", " ++ pyReprObj kvs

end

/-- Python `str()` of a decoded JSON value, as interpolated by an f-string:
`str` of a string is the string itself, of `None` is `"None"`, of `True` is
`"True"`; composites go through `repr` of their elements. -/
def pyStr : Json → String
  | Json.str s => s
  | v => pyRepr v

/-- Helper for `pySplitComma`: consumes the remaining characters, keeping the
current chunk (reversed) in `acc`. -/
def splitCommaAux : List Char → List Char → List String
  | [], acc => [String.mk acc.reverse]
  | c :: cs, acc =>
    if c == ',' then String.mk acc.reverse :: splitCommaAux cs []
    else splitCommaAux cs (c :: acc)

/-- Python `s.split(",")`: splits on every comma, keeping empty chunks
(`"A,,B" → ["A", "", "B"]`, `"" → [""]`). -/
def pySplitComma (s : String) : List String := splitCommaAux s.data []

/-- Truthiness of a Python optional-string parameter: `None` and `""` are
falsy, every other string is truthy (the `if param:` guards in the
operations). -/
def pyTruthy : Option String → Bool
  | none => false
  | some s => !(s == "")

/-- An HTTP request issued through the `requests` library.  The token request
carries its form-encoded fields here as an object body; API POST bodies are
the JSON body. -/
structure HttpRequest where
  method : String
  url : String
  headers : List (String × String)
  body : Option Json
deriving Repr

/-- The upstream response an operation would receive: status code, raw body
text, and the body as decoded by `resp.json()`. -/
structure HttpResponse where
  status_code : Nat
  text : String
  json : Json
deriving Repr

/-- Python exceptions the client can raise: `ValueError` from the credential
check, `requests.HTTPError` from `raise_for_status()` (the response, hence
its status and body text, is attached to the exception), and the
`KeyError`/`TypeError` from indexing the decoded token body. -/
inductive PyError where
  | valueError (msg : String)
  | httpError (status : Nat) (text : String)
  | keyError (key : String)
deriving Repr

/-- `requests.Response.raise_for_status()`: raises `HTTPError` exactly when
the status code is in 400..599 (4xx client errors and 5xx server errors),
and is a no-op otherwise. -/
def raise_for_status (resp : HttpResponse) : Except PyError Unit :=
  if 400 ≤ resp.status_code ∧ resp.status_code < 600 then
    Except.error (PyError.httpError resp.status_code resp.text)
  else
    Except.ok ()

/-- The state of `DigiKeyClient` (`client.py`): the constructor arguments,
the two URLs derived from `use_sandbox`, and the mutable `access_token`
(initially Python `None`, i.e. `Json.null`). -/
structure DigiKeyClient where
  client_id : String
  client_secret : String
  use_sandbox : Bool
  token_url : String
  api_base : String
  access_token : Json
deriving Repr

namespace DigiKeyClient

/-- `DigiKeyClient.__init__`: stores the credentials and flag, selects the
sandbox or production hosts for both URLs from the single flag, and starts
with `access_token = None`. -/
def init (client_id client_secret : String) (use_sandbox : Bool) : DigiKeyClient :=
  { client_id := client_id
    client_secret := client_secret
    use_sandbox := use_sandbox
    token_url :=
      if use_sandbox then "https://sandbox-api.digikey.com/v1/oauth2/token"
      else "https://api.digikey.com/v1/oauth2/token"
    api_base :=
      if use_sandbox then "https://sandbox-api.digikey.com"
      else "https://api.digikey.com"
    access_token := Json.null }

/-- `DigiKeyClient.get_headers(customer_id="0")`: the fixed dictionary of
seven headers.  The Authorization value is the f-string
`f"Bearer \x7bself.access_token\x7d"`, hence `"Bearer " ++ pyStr token`. -/
def get_headers (c : DigiKeyClient) (customer_id : String) : List (String × String) :=
  [("Authorization", "Bearer " ++ pyStr c.access_token),
   ("X-DIGIKEY-Client-Id", c.client_id),
   ("Content-Type", "application/json"),
   ("X-DIGIKEY-Locale-Site", "US"),
   ("X-DIGIKEY-Locale-Language", "en"),
   ("X-DIGIKEY-Locale-Currency", "USD"),
   ("X-DIGIKEY-Customer-Id", customer_id)]

/-- `DigiKeyClient.make_request`: logs, dispatches GET/POST, and on a
non-200 status calls `resp.raise_for_status()` (which raises only for
4xx/5xx); in every non-raising case it returns `resp.json()` verbatim. -/
def make_request (_method _url : String) (_headers : List (String × String))
    (_data : Option Json) (resp : HttpResponse) : Except PyError Json :=
  if resp.status_code ≠ 200 then
    match raise_for_status resp with
    | Except.error e => Except.error e
    | Except.ok () => Except.ok resp.json
  else
    Except.ok resp.json

end DigiKeyClient

/-- The outcome of running one client operation: the (possibly updated)
client state, the list of HTTP requests actually issued, and the Python
return value or raised exception.  `authenticate` returns Python `None`
(`Json.null`) on success; the nine API operations return the response
JSON. -/
structure StepResult where
  client : DigiKeyClient
  calls : List HttpRequest
  result : Except PyError Json
deriving Repr

namespace DigiKeyClient

/-- `DigiKeyClient.authenticate()`: raises `ValueError` before any network
activity when either credential is falsy; otherwise POSTs the form-encoded
client-credentials grant to `token_url`, raises via `raise_for_status()` on
a non-200 4xx/5xx status, and otherwise stores `resp.json()["access_token"]`
into `access_token`. -/
def authenticate (c : DigiKeyClient) (resp : HttpResponse) : StepResult :=
  if c.client_id == "" || c.client_secret == "" then
    { client := c, calls := [],
      result := Except.error
        (PyError.valueError "CLIENT_ID and CLIENT_SECRET must be provided") }
  else
    let req : HttpRequest :=
      { method := "POST"
        url := c.token_url
        headers := [("Content-Type", "application/x-www-form-urlencoded")]
        body := some (Json.obj
          [("grant_type", Json.str "client_credentials"),
           ("client_id", Json.str c.client_id),
           ("client_secret", Json.str c.client_secret)]) }
    if resp.status_code ≠ 200 ∧ 400 ≤ resp.status_code ∧ resp.status_code < 600 then
      { client := c, calls := [req],
        result := Except.error (PyError.httpError resp.status_code resp.text) }
    else
      match jsonLookup resp.json "access_token" with
      | none =>
        { client := c, calls := [req],
          result := Except.error (PyError.keyError "access_token") }
      | some tok =>
        { client := { c with access_token := tok }, calls := [req],
          result := Except.ok Json.null }

end DigiKeyClient

/-- The `body` dictionary assembled by `keyword_search` (`api/search.py`):
required `Keywords` and `Limit`, then each truthy optional in source order;
`search_options` is split on commas into a list, and `SortOptions` is the
nested `Field`/`SortOrder` object added only when `sort_field` is truthy. -/
def keyword_search_body (keywords : String) (limit : Int)
    (manufacturer_id category_id search_options sort_field : Option String)
    (sort_order : String) : List (String × Json) :=
  [("Keywords", Json.str keywords), ("Limit", Json.num limit)]
  ++ (match manufacturer_id with
      | some s => if s == "" then [] else [("ManufacturerId", Json.str s)]
      | none => [])
  ++ (match category_id with
      | some s => if s == "" then [] else [("CategoryId", Json.str s)]
      | none => [])
  ++ (match search_options with
      | some s => if s == "" then [] else
          [("SearchOptionList", Json.arr ((pySplitComma s).map Json.str))]
      | none => [])
  ++ (match sort_field with
      | some s => if s == "" then [] else
          [("SortOptions", Json.obj
             [("Field", Json.str s), ("SortOrder", Json.str sort_order)])]
      | none => [])

/-- `keyword_search` (`api/search.py`): the POST request it issues —
`POST <api_base>/products/v4/search/keyword` with default headers and the
assembled JSON body.  Python defaults: `limit=5`, the optional strings
`None`, `sort_order="Ascending"`. -/
def keyword_search (c : DigiKeyClient) (keywords : String) (limit : Int)
    (manufacturer_id category_id search_options sort_field : Option String)
    (sort_order : String) : HttpRequest :=
  { method := "POST"
    url := c.api_base ++ "/products/v4/search/keyword"
    headers := c.get_headers "0"
    body := some (Json.obj (keyword_search_body keywords limit
      manufacturer_id category_id search_options sort_field sort_order)) }

/-- `product_details` (`api/search.py`): GET request; the only query
parameter is `manufacturerId`, appended (with a `?`) only when truthy.
Python defaults: `manufacturer_id=None`, `customer_id="0"`. -/
def product_details (c : DigiKeyClient) (product_number : String)
    (manufacturer_id : Option String) (customer_id : String) : HttpRequest :=
  { method := "GET"
    url := c.api_base ++ "/products/v4/search/" ++ product_number ++ "/productdetails"
      ++ (match manufacturer_id with
          | some s => if s == "" then "" else "?manufacturerId=" ++ s
          | none => "")
    headers := c.get_headers customer_id
    body := none }

/-- `search_manufacturers` (`api/catalog.py`): parameterless GET. -/
def search_manufacturers (c : DigiKeyClient) : HttpRequest :=
  { method := "GET"
    url := c.api_base ++ "/products/v4/search/manufacturers"
    headers := c.get_headers "0"
    body := none }

/-- `search_categories` (`api/catalog.py`): parameterless GET. -/
def search_categories (c : DigiKeyClient) : HttpRequest :=
  { method := "GET"
    url := c.api_base ++ "/products/v4/search/categories"
    headers := c.get_headers "0"
    body := none }

/-- `get_category_by_id` (`api/catalog.py`): GET with the integer id
interpolated into the path. -/
def get_category_by_id (c : DigiKeyClient) (category_id : Int) : HttpRequest :=
  { method := "GET"
    url := c.api_base ++ "/products/v4/search/categories/" ++ toString category_id
    headers := c.get_headers "0"
    body := none }

/-- `search_product_substitutions` (`api/product.py`): GET whose query
string always carries `limit` and `excludeMarketPlaceProducts` (the Python
defaults are `10` and `False`, f-string rendered as `True`/`False`), plus
`searchOptionList` only when `search_options` is truthy — passed through
unsplit. -/
def search_product_substitutions (c : DigiKeyClient) (product_number : String)
    (limit : Int) (search_options : Option String)
    (exclude_marketplace : Bool) : HttpRequest :=
  { method := "GET"
    url := c.api_base ++ "/products/v4/search/" ++ product_number ++ "/substitutions"
      ++ "?limit=" ++ toString limit
      ++ "&excludeMarketPlaceProducts=" ++ pyStr (Json.bool exclude_marketplace)
      ++ (match search_options with
          | some s => if s == "" then "" else "&searchOptionList=" ++ s
          | none => "")
    headers := c.get_headers "0"
    body := none }

/-- `get_product_media` (`api/product.py`): bare GET on the media path. -/
def get_product_media (c : DigiKeyClient) (product_number : String) : HttpRequest :=
  { method := "GET"
    url := c.api_base ++ "/products/v4/search/" ++ product_number ++ "/media"
    headers := c.get_headers "0"
    body := none }

/-- `get_product_pricing` (`api/product.py`): GET whose query string always
carries `requestedQuantity` (Python default `1`); `customer_id` (default
`"0"`) goes into the headers only. -/
def get_product_pricing (c : DigiKeyClient) (product_number : String)
    (customer_id : String) (requested_quantity : Int) : HttpRequest :=
  { method := "GET"
    url := c.api_base ++ "/products/v4/search/" ++ product_number
      ++ "/productpricing?requestedQuantity=" ++ toString requested_quantity
    headers := c.get_headers customer_id
    body := none }

/-- `get_digi_reel_pricing` (`api/product.py`): GET whose query string
carries the required `requestedQuantity`; `customer_id` (default `"0"`)
goes into the headers only. -/
def get_digi_reel_pricing (c : DigiKeyClient) (product_number : String)
    (requested_quantity : Int) (customer_id : String) : HttpRequest :=
  { method := "GET"
    url := c.api_base ++ "/products/v4/search/" ++ product_number
      ++ "/digireelpricing?requestedQuantity=" ++ toString requested_quantity
    headers := c.get_headers customer_id
    body := none }

/-- One invocation of a client method: `authenticate` or one of the nine
API operations, each packaged with the upstream response it would
receive. -/
inductive ClientOp where
  | opAuthenticate (resp : HttpResponse)
  | opKeywordSearch (keywords : String) (limit : Int)
      (manufacturer_id category_id search_options sort_field : Option String)
      (sort_order : String) (resp : HttpResponse)
  | opProductDetails (product_number : String) (manufacturer_id : Option String)
      (customer_id : String) (resp : HttpResponse)
  | opSearchManufacturers (resp : HttpResponse)
  | opSearchCategories (resp : HttpResponse)
  | opGetCategoryById (category_id : Int) (resp : HttpResponse)
  | opSearchProductSubstitutions (product_number : String) (limit : Int)
      (search_options : Option String) (exclude_marketplace : Bool)
      (resp : HttpResponse)
  | opGetProductMedia (product_number : String) (resp : HttpResponse)
  | opGetProductPricing (product_number : String) (customer_id : String)
      (requested_quantity : Int) (resp : HttpResponse)
  | opGetDigiReelPricing (product_number : String) (requested_quantity : Int)
      (customer_id : String) (resp : HttpResponse)

/-- Whether the operation is `authenticate`. -/
def ClientOp.isAuthenticate : ClientOp → Bool
  | ClientOp.opAuthenticate _ => true
  | _ => false

/-- Delegation of a built API request to `make_request`, recording the one
request issued.  The nine operation functions contain no assignment to any
client attribute, so the client state is returned unchanged. -/
def dispatch (c : DigiKeyClient) (req : HttpRequest) (resp : HttpResponse) :
    StepResult :=
  { client := c, calls := [req],
    result := DigiKeyClient.make_request req.method req.url req.headers req.body resp }

/-- Runs one client operation against the given upstream response. -/
def runOp (c : DigiKeyClient) : ClientOp → StepResult
  | ClientOp.opAuthenticate resp => c.authenticate resp
  | ClientOp.opKeywordSearch kw lim mid cat so sf ord resp =>
      dispatch c (keyword_search c kw lim mid cat so sf ord) resp
  | ClientOp.opProductDetails pn mid cust resp =>
      dispatch c (product_details c pn mid cust) resp
  | ClientOp.opSearchManufacturers resp =>
      dispatch c (search_manufacturers c) resp
  | ClientOp.opSearchCategories resp =>
      dispatch c (search_categories c) resp
  | ClientOp.opGetCategoryById cid resp =>
      dispatch c (get_category_by_id c cid) resp
  | ClientOp.opSearchProductSubstitutions pn lim so excl resp =>
      dispatch c (search_product_substitutions c pn lim so excl) resp
  | ClientOp.opGetProductMedia pn resp =>
      dispatch c (get_product_media c pn) resp
  | ClientOp.opGetProductPricing pn cust qty resp =>
      dispatch c (get_product_pricing c pn cust qty) resp
  | ClientOp.opGetDigiReelPricing pn qty cust resp =>
      dispatch c (get_digi_reel_pricing c pn qty cust) resp

/-- A sample production client, as built by `DigiKeyClient("id1", "secret1")`. -/
def sampleClient : DigiKeyClient := DigiKeyClient.init "id1" "secret1" false

/-- The sample client after storing a (string) bearer token. -/
def sampleAuthedClient : DigiKeyClient :=
  { sampleClient with access_token := Json.str "tok123" }

/-- A client constructed with an empty `client_id`. -/
def emptyIdClient : DigiKeyClient := DigiKeyClient.init "" "secret1" false

/-- C1, counterexample.  The claim says a call with every optional parameter
left unset produces a URL containing only the required fields, with no keys
for omitted optionals.  `search_product_substitutions` with all optionals at
their Python defaults (`limit=10`, `search_options=None`,
`exclude_marketplace=False`) nevertheless puts `limit=10` and
`excludeMarketPlaceProducts=False` into the query string — keys for
optionals the caller omitted — so the URL differs from the required-only
one. -/
theorem c1_omitted_optionals_counterexample :
    (search_product_substitutions sampleClient "P1" 10 none false).url
      = "https://api.digikey.com/products/v4/search/P1/substitutions?limit=10&excludeMarketPlaceProducts=False"
    ∧ (search_product_substitutions sampleClient "P1" 10 none false).url
      ≠ "https://api.digikey.com/products/v4/search/P1/substitutions" := by
  constructor
  · rfl
  · decide

/-- C1, amended: with every optional parameter left unset, no empty or null
value is ever sent and no key appears for an optional whose default is
`None`; but optionals with a concrete default are always sent with that
default (`Limit: 5` in the keyword-search body, `limit=10` and
`excludeMarketPlaceProducts=False` for substitutions, `requestedQuantity=1`
for product pricing).  The remaining operations produce bare URLs/bodies
with only the required fields. -/
theorem c1_omitted_optionals_amended (c : DigiKeyClient) (kw pn : String)
    (cid qty : Int) :
    (keyword_search c kw 5 none none none none "Ascending").body
      = some (Json.obj [("Keywords", Json.str kw), ("Limit", Json.num 5)])
    ∧ (product_details c pn none "0").url
      = c.api_base ++ "/products/v4/search/" ++ pn ++ "/productdetails"
    ∧ (product_details c pn none "0").body = none
    ∧ (search_manufacturers c).url
      = c.api_base ++ "/products/v4/search/manufacturers"
    ∧ (search_categories c).url
      = c.api_base ++ "/products/v4/search/categories"
    ∧ (get_category_by_id c cid).url
      = c.api_base ++ "/products/v4/search/categories/" ++ toString cid
    ∧ (search_product_substitutions c pn 10 none false).url
      = c.api_base ++ "/products/v4/search/" ++ pn
        ++ "/substitutions?limit=10&excludeMarketPlaceProducts=False"
    ∧ (get_product_media c pn).url
      = c.api_base ++ "/products/v4/search/" ++ pn ++ "/media"
    ∧ (get_product_pricing c pn "0" 1).url
      = c.api_base ++ "/products/v4/search/" ++ pn
        ++ "/productpricing?requestedQuantity=1"
    ∧ (get_digi_reel_pricing c pn qty "0").url
      = c.api_base ++ "/products/v4/search/" ++ pn
        ++ "/digireelpricing?requestedQuantity=" ++ toString qty := by
  refine ⟨rfl, ?_, rfl, rfl, rfl, rfl, ?_, rfl, ?_, ?_⟩
  · simp [product_details]
  · simp [search_product_substitutions, pyStr, pyRepr, String.append_assoc,
      show toString (10 : Int) = "10" from rfl]
  · simp [get_product_pricing, String.append_assoc,
      show toString (1 : Int) = "1" from rfl]
  · simp [get_digi_reel_pricing, String.append_assoc]

/-- C2: for a non-empty comma-delimited string `s`, `keyword_search` puts
the split list (order preserved) into the body's `SearchOptionList`, while
`search_product_substitutions` appends the literal unsplit `s` as the
`searchOptionList` query value. -/
theorem c2_search_options_asymmetry (c : DigiKeyClient) (s kw pn : String)
    (h : s ≠ "") :
    (keyword_search c kw 5 none none (some s) none "Ascending").body
      = some (Json.obj
          [("Keywords", Json.str kw), ("Limit", Json.num 5),
           ("SearchOptionList", Json.arr ((pySplitComma s).map Json.str))])
    ∧ (search_product_substitutions c pn 10 (some s) false).url
      = c.api_base ++ "/products/v4/search/" ++ pn
        ++ "/substitutions?limit=10&excludeMarketPlaceProducts=False&searchOptionList="
        ++ s := by
  constructor
  · simp [keyword_search, keyword_search_body, h]
  · simp [search_product_substitutions, h, pyStr, pyRepr, String.append_assoc,
      show toString (10 : Int) = "10" from rfl,
      show ∀ t : String,
          "/substitutions?limit=10&excludeMarketPlaceProducts=False"
            ++ ("&searchOptionList=" ++ t)
          = "/substitutions?limit=10&excludeMarketPlaceProducts=False&searchOptionList="
            ++ t
        from fun t => by rw [← String.append_assoc]; congr 1]

/-- C2, witness: at `s = "A,B"` the body field is the ordered two-element
list `["A", "B"]` and the GET query carries the literal `A,B`. -/
theorem c2_search_options_asymmetry_witness :
    (keyword_search sampleClient "res" 5 none none (some "A,B") none "Ascending").body
      = some (Json.obj
          [("Keywords", Json.str "res"), ("Limit", Json.num 5),
           ("SearchOptionList", Json.arr [Json.str "A", Json.str "B"])])
    ∧ (search_product_substitutions sampleClient "PN" 10 (some "A,B") false).url
      = "https://api.digikey.com/products/v4/search/PN/substitutions?limit=10&excludeMarketPlaceProducts=False&searchOptionList=A,B" := by
  have h := c2_search_options_asymmetry sampleClient "A,B" "res" "PN" (by decide)
  exact ⟨h.1.trans (by rfl), h.2.trans (by rfl)⟩

/-- C3, counterexample.  The claim says `make_request` raises exactly when
the status is not 200; but `raise_for_status()` only raises for 4xx/5xx, so
a 201 response — which is not 200 — is returned as parsed JSON instead of
raising. -/
theorem c3_non200_counterexample :
    (201 : Nat) ≠ 200
    ∧ DigiKeyClient.make_request "GET"
        "https://api.digikey.com/products/v4/search/manufacturers"
        (sampleAuthedClient.get_headers "0") none
        { status_code := 201, text := "created", json := Json.obj [] }
      = Except.ok (Json.obj []) := by
  exact ⟨by decide, rfl⟩

/-- C3, amended: `make_request` raises an error carrying the upstream status
code and raw body text if and only if the status is in 400..599; for every
other status (200, but also non-200 ones such as 201 or 302) it returns the
parsed JSON body verbatim, with no schema validation or renaming. -/
theorem c3_make_request_status_amended (m url : String)
    (hs : List (String × String)) (d : Option Json) (resp : HttpResponse) :
    (400 ≤ resp.status_code ∧ resp.status_code < 600 →
      DigiKeyClient.make_request m url hs d resp
        = Except.error (PyError.httpError resp.status_code resp.text))
    ∧ (¬ (400 ≤ resp.status_code ∧ resp.status_code < 600) →
      DigiKeyClient.make_request m url hs d resp = Except.ok resp.json) := by
  constructor
  · intro h
    have h200 : resp.status_code ≠ 200 := by omega
    simp [DigiKeyClient.make_request, raise_for_status, h, h200]
  · intro h
    by_cases h200 : resp.status_code = 200
    · simp [DigiKeyClient.make_request, h200]
    · simp [DigiKeyClient.make_request, raise_for_status, h, h200]

/-- C3, witness: a 404 raises with the exact status and body text; a 200
returns the body. -/
theorem c3_make_request_status_witness :
    DigiKeyClient.make_request "GET" "https://api.digikey.com/x"
        (sampleAuthedClient.get_headers "0") none
        { status_code := 404, text := "not found", json := Json.null }
      = Except.error (PyError.httpError 404 "not found")
    ∧ DigiKeyClient.make_request "GET" "https://api.digikey.com/x"
        (sampleAuthedClient.get_headers "0") none
        { status_code := 200, text := "ok", json := Json.obj [("A", Json.num 1)] }
      = Except.ok (Json.obj [("A", Json.num 1)]) := by
  constructor
  · exact (c3_make_request_status_amended "GET" "https://api.digikey.com/x"
      (sampleAuthedClient.get_headers "0") none
      { status_code := 404, text := "not found", json := Json.null }).1 (by decide)
  · exact (c3_make_request_status_amended "GET" "https://api.digikey.com/x"
      (sampleAuthedClient.get_headers "0") none
      { status_code := 200, text := "ok", json := Json.obj [("A", Json.num 1)] }).2
      (by decide)

/-- C4: `authenticate()` with either credential empty raises the
configuration `ValueError`, issues no HTTP request at all, and leaves the
client (in particular its `access_token`) unchanged. -/
theorem c4_authenticate_empty_credentials (c : DigiKeyClient)
    (resp : HttpResponse) (h : c.client_id = "" ∨ c.client_secret = "") :
    (c.authenticate resp).result
      = Except.error
          (PyError.valueError "CLIENT_ID and CLIENT_SECRET must be provided")
    ∧ (c.authenticate resp).calls = []
    ∧ (c.authenticate resp).client = c := by
  have hcond : (c.client_id == "" || c.client_secret == "") = true := by
    rcases h with h | h <;> simp [h]
  refine ⟨?_, ?_, ?_⟩ <;> simp [DigiKeyClient.authenticate, hcond]

/-- C4, witness: a client built with an empty `client_id` fails this way
even against a would-be 200 token response. -/
theorem c4_authenticate_empty_credentials_witness :
    (emptyIdClient.authenticate
        { status_code := 200, text := "",
          json := Json.obj [("access_token", Json.str "t")] }).result
      = Except.error
          (PyError.valueError "CLIENT_ID and CLIENT_SECRET must be provided")
    ∧ (emptyIdClient.authenticate
        { status_code := 200, text := "",
          json := Json.obj [("access_token", Json.str "t")] }).calls = []
    ∧ (emptyIdClient.authenticate
        { status_code := 200, text := "",
          json := Json.obj [("access_token", Json.str "t")] }).client
      = emptyIdClient := by
  exact c4_authenticate_empty_credentials emptyIdClient
    { status_code := 200, text := "",
      json := Json.obj [("access_token", Json.str "t")] } (Or.inl rfl)

/-- C5: the constructor derives both the token endpoint and the API base
from the single `use_sandbox` flag — sandbox gives the sandbox host for
both, production the production host for both — and no operation
(`authenticate` included) ever changes either URL afterwards, so hosts are
never mixed. -/
theorem c5_sandbox_host_consistency (cid cs : String) (c : DigiKeyClient)
    (op : ClientOp) :
    ((DigiKeyClient.init cid cs true).token_url
        = "https://sandbox-api.digikey.com/v1/oauth2/token"
      ∧ (DigiKeyClient.init cid cs true).api_base
        = "https://sandbox-api.digikey.com")
    ∧ ((DigiKeyClient.init cid cs false).token_url
        = "https://api.digikey.com/v1/oauth2/token"
      ∧ (DigiKeyClient.init cid cs false).api_base
        = "https://api.digikey.com")
    ∧ (runOp c op).client.token_url = c.token_url
    ∧ (runOp c op).client.api_base = c.api_base := by
  refine ⟨⟨rfl, rfl⟩, ⟨rfl, rfl⟩, ?_, ?_⟩ <;>
    cases op <;>
      simp only [runOp, dispatch, DigiKeyClient.authenticate] <;>
      repeat' first
        | rfl
        | split

/-- C6: `get_headers` is a pure function of the stored token, the client id
and the caller-supplied customer id, returning exactly the seven headers
with the hardcoded `US`/`en`/`USD` locale values; when the token is a
string, the Authorization value is `Bearer <token>`. -/
theorem c6_get_headers_seven (c : DigiKeyClient) (customer_id : String) :
    c.get_headers customer_id
      = [("Authorization", "Bearer " ++ pyStr c.access_token),
         ("X-DIGIKEY-Client-Id", c.client_id),
         ("Content-Type", "application/json"),
         ("X-DIGIKEY-Locale-Site", "US"),
         ("X-DIGIKEY-Locale-Language", "en"),
         ("X-DIGIKEY-Locale-Currency", "USD"),
         ("X-DIGIKEY-Customer-Id", customer_id)]
    ∧ (c.get_headers customer_id).length = 7
    ∧ (∀ t, c.access_token = Json.str t →
        (c.get_headers customer_id).head?
          = some ("Authorization", "Bearer " ++ t))
    ∧ ∀ c2 : DigiKeyClient, c2.access_token = c.access_token →
        c2.client_id = c.client_id →
        c2.get_headers customer_id = c.get_headers customer_id := by
  refine ⟨rfl, rfl, ?_, ?_⟩
  · intro t ht
    simp [DigiKeyClient.get_headers, ht, pyStr]
  · intro c2 h1 h2
    simp [DigiKeyClient.get_headers, h1, h2]

/-- C6, witness: the sample authenticated client yields the seven concrete
headers, with `Bearer tok123`; a client differing only in the secret and
flag yields the same headers. -/
theorem c6_get_headers_seven_witness :
    (sampleAuthedClient.get_headers "0").length = 7
    ∧ (sampleAuthedClient.get_headers "0").head?
      = some ("Authorization", "Bearer tok123")
    ∧ ({ sampleAuthedClient with client_secret := "other" } :
        DigiKeyClient).get_headers "0" = sampleAuthedClient.get_headers "0" := by
  have h := c6_get_headers_seven sampleAuthedClient "0"
  refine ⟨h.2.1, (h.2.2.1 "tok123" rfl).trans (by rfl), ?_⟩
  exact h.2.2.2 { sampleAuthedClient with client_secret := "other" } rfl rfl

/-- C7: `get_digi_reel_pricing("296-1721-1-ND", 100)` with the defaulted
customer id issues a GET on
`<api_base>/products/v4/search/296-1721-1-ND/digireelpricing?requestedQuantity=100`
with no body, and the headers carry `X-DIGIKEY-Customer-Id: 0`. -/
theorem c7_digi_reel_pricing_request (c : DigiKeyClient) :
    (get_digi_reel_pricing c "296-1721-1-ND" 100 "0").method = "GET"
    ∧ (get_digi_reel_pricing c "296-1721-1-ND" 100 "0").url
      = c.api_base
        ++ "/products/v4/search/296-1721-1-ND/digireelpricing?requestedQuantity=100"
    ∧ (get_digi_reel_pricing c "296-1721-1-ND" 100 "0").body = none
    ∧ ("X-DIGIKEY-Customer-Id", "0")
      ∈ (get_digi_reel_pricing c "296-1721-1-ND" 100 "0").headers := by
  refine ⟨rfl, ?_, rfl, ?_⟩
  · simp [get_digi_reel_pricing, String.append_assoc,
      show toString (100 : Int) = "100" from rfl]
  · simp [get_digi_reel_pricing, DigiKeyClient.get_headers]

/-- C8, counterexample.  The claim says the token, once set, can never
return to `None`; but a non-raising `authenticate()` against a 200 token
response whose `access_token` field is JSON `null` stores `None` again,
transitioning an Authenticated client back to Unauthenticated. -/
theorem c8_token_reset_counterexample :
    sampleAuthedClient.access_token ≠ Json.null
    ∧ (runOp sampleAuthedClient (ClientOp.opAuthenticate
        { status_code := 200, text := "",
          json := Json.obj [("access_token", Json.null)] })).result
      = Except.ok Json.null
    ∧ (runOp sampleAuthedClient (ClientOp.opAuthenticate
        { status_code := 200, text := "",
          json := Json.obj [("access_token", Json.null)] })).client.access_token
      = Json.null := by
  refine ⟨?_, rfl, rfl⟩
  intro h
  exact Json.noConfusion h

/-- C8, amended: `access_token` starts as `None`, none of the nine API
operations ever changes it, and only `authenticate` writes it — storing
whatever JSON value the token response's `access_token` field holds.
Provided that field is never `null` in a response `authenticate` accepts,
the transition is one-way: an Authenticated client stays Authenticated. -/
theorem c8_access_token_lifecycle (cid cs : String) (sb : Bool)
    (c : DigiKeyClient) (op : ClientOp) :
    (DigiKeyClient.init cid cs sb).access_token = Json.null
    ∧ (op.isAuthenticate = false → (runOp c op).client = c)
    ∧ (∀ resp, op = ClientOp.opAuthenticate resp →
        c.access_token ≠ Json.null →
        (∀ v, jsonLookup resp.json "access_token" = some v → v ≠ Json.null) →
        (runOp c op).client.access_token ≠ Json.null) := by
  refine ⟨rfl, ?_, ?_⟩
  · intro hop
    cases op <;> simp_all [ClientOp.isAuthenticate, runOp, dispatch]
  · intro resp heq hne hv
    subst heq
    simp only [runOp, DigiKeyClient.authenticate]
    split
    · exact hne
    · split
      · exact hne
      · rcases hjl : jsonLookup resp.json "access_token" with _ | tok
        · simp only [hjl]
          exact hne
        · simp only [hjl]
          exact hv tok hjl

/-- C8, witness: a GET operation leaves the authenticated client unchanged,
and re-authentication against a 200 response carrying a string token keeps
the client Authenticated. -/
theorem c8_access_token_lifecycle_witness :
    (runOp sampleAuthedClient (ClientOp.opGetProductMedia "P1"
        { status_code := 200, text := "", json := Json.null })).client
      = sampleAuthedClient
    ∧ (runOp sampleAuthedClient (ClientOp.opAuthenticate
        { status_code := 200, text := "",
          json := Json.obj [("access_token", Json.str "tok2")] })).client.access_token
      ≠ Json.null := by
  constructor
  · exact (c8_access_token_lifecycle "id1" "secret1" false sampleAuthedClient
      (ClientOp.opGetProductMedia "P1"
        { status_code := 200, text := "", json := Json.null })).2.1 rfl
  · exact (c8_access_token_lifecycle "id1" "secret1" false sampleAuthedClient
      (ClientOp.opAuthenticate
        { status_code := 200, text := "",
          json := Json.obj [("access_token", Json.str "tok2")] })).2.2
      { status_code := 200, text := "",
        json := Json.obj [("access_token", Json.str "tok2")] }
      rfl
      (fun h => Json.noConfusion h)
      (fun v hv => by
        have hv2 : some (Json.str "tok2") = some v := hv
        intro hnull
        rw [Option.some.injEq] at hv2
        rw [← hv2] at hnull
        exact Json.noConfusion hnull)

/-- C9: calling `get_headers` before any successful `authenticate` (token
still `None`) does not fail; it returns the full header set whose
Authorization value is the literal f-string rendering `Bearer None`. -/
theorem c9_bearer_none_headers (c : DigiKeyClient) (customer_id : String)
    (h : c.access_token = Json.null) :
    c.get_headers customer_id
      = [("Authorization", "Bearer None"),
         ("X-DIGIKEY-Client-Id", c.client_id),
         ("Content-Type", "application/json"),
         ("X-DIGIKEY-Locale-Site", "US"),
         ("X-DIGIKEY-Locale-Language", "en"),
         ("X-DIGIKEY-Locale-Currency", "USD"),
         ("X-DIGIKEY-Customer-Id", customer_id)] := by
  simp [DigiKeyClient.get_headers, h, pyStr, pyRepr]

/-- C9, witness: the freshly constructed sample client (never
authenticated) yields exactly these headers, `Bearer None` included. -/
theorem c9_bearer_none_headers_witness :
    sampleClient.get_headers "0"
      = [("Authorization", "Bearer None"),
         ("X-DIGIKEY-Client-Id", "id1"),
         ("Content-Type", "application/json"),
         ("X-DIGIKEY-Locale-Site", "US"),
         ("X-DIGIKEY-Locale-Language", "en"),
         ("X-DIGIKEY-Locale-Currency", "USD"),
         ("X-DIGIKEY-Customer-Id", "0")] := by
  exact c9_bearer_none_headers sampleClient "0" rfl

/-- C10: the keyword-search body is the body built with `sort_field = None`
plus, exactly when `sort_field` is truthy (set and non-empty), one trailing
`SortOptions` object `Field`/`SortOrder`; a body built without a truthy
`sort_field` never contains a `SortOptions` entry, and with `sort_field`
unset the body does not depend on `sort_order` at all. -/
theorem c10_sort_options_iff (kw : String) (lim : Int)
    (mid cat so sf : Option String) (ord ord2 : String) :
    (keyword_search_body kw lim mid cat so sf ord
      = keyword_search_body kw lim mid cat so none ord
        ++ (if pyTruthy sf then
              [("SortOptions", Json.obj
                 [("Field", Json.str (sf.getD "")),
                  ("SortOrder", Json.str ord)])]
            else []))
    ∧ (∀ v, ("SortOptions", v) ∉ keyword_search_body kw lim mid cat so none ord)
    ∧ (pyTruthy sf = false →
        keyword_search_body kw lim mid cat so sf ord
          = keyword_search_body kw lim mid cat so sf ord2) := by
  refine ⟨?_, ?_, ?_⟩
  · rcases sf with _ | s
    · simp [keyword_search_body, pyTruthy]
    · by_cases hs : s = ""
      · simp [keyword_search_body, pyTruthy, hs]
      · simp [keyword_search_body, pyTruthy, hs]
  · intro v
    rcases mid with _ | m <;> rcases cat with _ | a <;> rcases so with _ | o <;>
      simp [keyword_search_body]
  · intro hf
    rcases sf with _ | s
    · rfl
    · have hs : (s == "") = true := by
        simpa [pyTruthy] using hf
      simp [keyword_search_body, hs]

/-- C10, witness: `sort_field="Price"` appends exactly the `SortOptions`
object, and with `sort_field` unset the bodies for `Ascending` and
`Descending` coincide. -/
theorem c10_sort_options_iff_witness :
    keyword_search_body "res" 5 none none none (some "Price") "Ascending"
      = keyword_search_body "res" 5 none none none none "Ascending"
        ++ [("SortOptions", Json.obj
             [("Field", Json.str "Price"), ("SortOrder", Json.str "Ascending")])]
    ∧ keyword_search_body "res" 5 none none none none "Ascending"
      = keyword_search_body "res" 5 none none none none "Descending" := by
  have h := c10_sort_options_iff "res" 5 none none none (some "Price")
    "Ascending" "Ascending"
  have h2 := c10_sort_options_iff "res" 5 none none none none
    "Ascending" "Descending"
  exact ⟨h.1.trans (by rfl), h2.2.2 rfl⟩

end DigikeyMcp
